import Mathlib

/-!
Verification of the mint S3-test harness logic: the s3select
expectation-matching runner (`run/core/s3select/csv.py`), the structured
`LogOutput` reporter (`run/core/s3select/utils.py`), the s3select suite
driver (`run/core/s3select/tests.py`), the conditional-copy precondition
handler and the `log_decorate` wrapper (`Apps/minio-py`).

Bytes are modelled as `List Nat` (one entry per byte value); the bucket is
an association list from object name to content; the storage client's
behaviour (which can succeed or raise at put/select/stream time) is an
explicit outcome parameter, since that behaviour lives on the server side.
-/

set_option autoImplicit false

namespace Mint

/-- A byte sequence (`bytes` in the Python source), one `Nat` per byte. -/
abbrev Bytes := List Nat

/-- The bucket contents: object name to object content. -/
abbrev Bucket := List (String × Bytes)

/-- The ASCII bytes of a string, used to spell the byte literals of the
Python test tables. -/
def ascii (s : String) : Bytes := s.toList.map Char.toNat

/-- `client.remove_object(bucket_name, object_name)`: every entry for the
given name is removed. -/
def removeObject (b : Bucket) (name : String) : Bucket :=
  b.filter (fun p => p.1 != name)

/-- `client.put_object(bucket_name, object_name, data, len)`: stores the
data under the name, overwriting any previous entry. -/
def putObject (b : Bucket) (name : String) (data : Bytes) : Bucket :=
  (name, data) :: removeObject b name

/-- The `expected_output` argument of `test_sql_api`: either a literal
byte sequence, or an `Exception` instance (the expect-failure marker,
tested by `isinstance(expected_output, Exception)`). -/
inductive ExpectedOutput where
  | bytes (b : Bytes)
  | exception
  deriving DecidableEq

/-- Behaviour of the `put_object` / `select_object_content` / stream-drain
pipeline inside the `try` block of `test_sql_api`.  Either the whole
pipeline succeeds and the stream yields the given chunks (read in 10 KiB
pieces and accumulated into `got_output`), or some step raises an
exception carrying a message; `putSucceeded` records whether the failure
occurred after the object had been created. -/
inductive ExecOutcome where
  | success (chunks : List Bytes)
  | failure (err : String) (putSucceeded : Bool)
  deriving DecidableEq

/-- The `ValueError`s raised by `test_sql_api`, with the values the three
format strings interpolate:
`'Test {} unexpectedly failed with: {}'`,
`'Test {}: expected an exception, got {}'`, and
`'Test {}: data mismatch. Expected : {}, Received {}'`. -/
inductive VErr where
  | unexpectedFailure (test_name : String) (err : String)
  | expectedException (test_name : String) (got : Bytes)
  | dataMismatch (test_name : String) (expected got : Bytes)
  deriving DecidableEq

/-- `test_sql_api(test_name, client, bucket_name, input_data, sql_opts,
expected_output)` from `run/core/s3select/csv.py`.  Returns the control
outcome (normal return, or the raised `ValueError`) together with the
bucket contents after the `finally` clause ran `remove_object`. -/
def test_sql_api (test_name : String) (b : Bucket) (object_name : String)
    (input_data : Bytes) (exec : ExecOutcome)
    (expected_output : ExpectedOutput) : Except VErr Unit × Bucket :=
  let afterPut : Bucket :=
    match exec with
    | .failure _ false => b
    | _ => putObject b object_name input_data
  let result : Except VErr Unit :=
    match exec with
    | .failure err _ =>
      match expected_output with
      | .exception => .ok ()
      | .bytes _ => .error (.unexpectedFailure test_name err)
    | .success chunks =>
      match expected_output with
      | .exception => .error (.expectedException test_name chunks.flatten)
      | .bytes expected =>
        if chunks.flatten ≠ expected then
          .error (.dataMismatch test_name expected chunks.flatten)
        else .ok ()
  (result, removeObject afterPut object_name)

theorem lookup_removeObject (b : Bucket) (name : String) :
    (removeObject b name).lookup name = none := by
  induction b with
  | nil => rfl
  | cons hd tl ih =>
    obtain ⟨k, v⟩ := hd
    by_cases h : k = name
    · have hk : (k != name) = false := by simp [bne, h]
      simpa [removeObject, List.filter, hk] using ih
    · have hk : (k != name) = true := by simp [bne, h]
      have hk2 : (name == k) = false := beq_eq_false_iff_ne.mpr (Ne.symm h)
      simp only [removeObject, List.filter, hk] at *
      simpa [List.lookup, hk2] using ih

/-- C1: with a literal byte-sequence expectation, `test_sql_api` returns
normally exactly when the pipeline succeeds and the accumulated output
equals the expected bytes; a byte difference raises the data-mismatch
`ValueError` naming the test case, the expected and the actual bytes, and
an error during execution raises the unexpected-failure `ValueError`
naming the test case and the underlying error. -/
theorem test_sql_api_literal_expectation (tn : String) (b : Bucket)
    (obj : String) (inp : Bytes) (exec : ExecOutcome) (expected : Bytes) :
    ((test_sql_api tn b obj inp exec (.bytes expected)).1 = .ok ()
      ↔ ∃ chunks, exec = .success chunks ∧ chunks.flatten = expected)
    ∧ (∀ chunks, exec = .success chunks → chunks.flatten ≠ expected →
        (test_sql_api tn b obj inp exec (.bytes expected)).1
          = .error (.dataMismatch tn expected chunks.flatten))
    ∧ (∀ e p, exec = .failure e p →
        (test_sql_api tn b obj inp exec (.bytes expected)).1
          = .error (.unexpectedFailure tn e)) := by
  refine ⟨?_, ?_, ?_⟩
  · cases exec with
    | success chunks =>
      by_cases h : chunks.flatten = expected
      · simp [test_sql_api, h]
      · simp [test_sql_api, h]
    | failure e p => simp [test_sql_api]
  · rintro chunks rfl h
    simp [test_sql_api, h]
  · rintro e p rfl
    simp [test_sql_api]

/-- C1 witness: a concrete mismatched case raises the data-mismatch
`ValueError` carrying the expected and received bytes. -/
theorem test_sql_api_literal_expectation_witness :
    (test_sql_api "t0" [] "obj" [49] (.success [[49]]) (.bytes [50])).1
      = .error (.dataMismatch "t0" [50] [49]) :=
  (test_sql_api_literal_expectation "t0" [] "obj" [49]
    (.success [[49]]) [50]).2.1 [[49]] rfl (by decide)

/-- C2: with the expect-failure marker, `test_sql_api` returns normally
exactly when the pipeline raises; when the pipeline instead succeeds, the
runner raises the expected-an-exception `ValueError` naming the test case
and the accumulated output, whatever those bytes are (so no byte-equality
comparison takes place). -/
theorem test_sql_api_expect_failure (tn : String) (b : Bucket)
    (obj : String) (inp : Bytes) (exec : ExecOutcome) :
    ((test_sql_api tn b obj inp exec .exception).1 = .ok ()
      ↔ ∃ e p, exec = .failure e p)
    ∧ (∀ chunks, exec = .success chunks →
        (test_sql_api tn b obj inp exec .exception).1
          = .error (.expectedException tn chunks.flatten)) := by
  constructor
  · cases exec with
    | success chunks => simp [test_sql_api]
    | failure e p => simp [test_sql_api]
  · rintro chunks rfl
    simp [test_sql_api]

/-- C2 witness: a concrete case where the operation succeeds although a
failure was expected raises the expected-an-exception `ValueError`. -/
theorem test_sql_api_expect_failure_witness :
    (test_sql_api "t1" [] "obj" [49] (.success [[49]]) .exception).1
      = .error (.expectedException "t1" [49]) :=
  (test_sql_api_expect_failure "t1" [] "obj" [49] (.success [[49]])).2
    [[49]] rfl

/-- C3: on every exit path of `test_sql_api` (match, mismatch, expected
or unexpected exception), the `finally` clause has removed the object
created for the case, so the bucket returned by the runner has no entry
under the generated object name. -/
theorem test_sql_api_cleanup (tn : String) (b : Bucket) (obj : String)
    (inp : Bytes) (exec : ExecOutcome) (expected : ExpectedOutput) :
    ((test_sql_api tn b obj inp exec expected).2).lookup obj = none := by
  cases exec with
  | success chunks => exact lookup_removeObject _ obj
  | failure e p => cases p <;> exact lookup_removeObject _ obj

/-- A JSON value as used in the report entry dict of
`LogOutput.json_report`: a string, an integer (the duration), or a
string-keyed mapping (the args dict). -/
inductive JVal where
  | str (s : String)
  | num (n : Int)
  | obj (m : List (String × JVal))

/-- The guard `v and v != ''` of the two dict comprehensions in
`json_report`: a string passes iff nonempty, a number iff nonzero, a
mapping iff nonempty (for a non-string value, `v != ''` is always true in
Python, so only truthiness decides). -/
def jtruthy : JVal → Bool
  | .str s => s != ""
  | .num n => n != 0
  | .obj m => !m.isEmpty

/-- `{k: v for k, v in d.items() if v and v != ''}`. -/
def filterTruthy (l : List (String × JVal)) : List (String × JVal) :=
  l.filter (fun p => jtruthy p.2)

/-- The state of a `LogOutput` reporter (`run/core/s3select/utils.py`).
Times are in milliseconds, so the Python expression
`int(round((time.time() - self.__start_time) * 1000))` becomes
`now - start_time`. -/
structure LogOutput where
  name : String
  function : String
  args : List (String × JVal)
  duration : Int
  alert : String
  status : String
  start_time : Int

/-- `LogOutput.__init__(self, meth, test_name)`.  `args_list` stands for
`inspect.getargspec(meth).args[1:]` and `meth_name` for `meth.__name__`,
both introspected from the Python callable outside this model. -/
def LogOutput.init (meth_name : String) (args_list : List String)
    (test_name : String) (now : Int) : LogOutput :=
  { name := "s3select:" ++ test_name
    function := meth_name ++ "(" ++ String.intercalate ", " args_list ++ ")"
    args := []
    duration := 0
    alert := ""
    status := "PASS"
    start_time := now }

/-- The `status` entry of the report:
`status if status and status != '' else self.FAIL if err_msg and
err_msg != '' else self.PASS`. -/
def statusValue (err_msg status : String) : String :=
  if status != "" then status else if err_msg != "" then "FAIL" else "PASS"

/-- `LogOutput.json_report(self, err_msg='', alert='', status='')`.
Returns the filtered key-value entries of the JSON record (in the order
of the Python dict literal) together with the mutated reporter (the
method reassigns `self.__args` to its filtered copy before building the
record).  `trace` stands for the ambient `traceback.format_exc()` and
`err_msg`/`alert` for `str(err_msg)`/`str(alert)`. -/
def json_report (lo : LogOutput) (now : Int) (trace : String)
    (err_msg alert status : String) : List (String × JVal) × LogOutput :=
  let newArgs := filterTruthy lo.args
  let entry : List (String × JVal) :=
    [("name", .str lo.name),
     ("function", .str lo.function),
     ("args", .obj newArgs),
     ("duration", .num (now - lo.start_time)),
     ("alert", .str alert),
     ("message", .str err_msg),
     ("error", .str (if err_msg != "" then trace else "")),
     ("status", .str (statusValue err_msg status))]
  (filterTruthy entry, { lo with args := newArgs })

theorem statusValue_ne_empty (err status : String) :
    (statusValue err status != "") = true := by
  simp only [statusValue]
  by_cases hs : status = ""
  · by_cases he : err = "" <;> simp [hs, he]
  · simp [hs]

theorem filterTruthy_idem (l : List (String × JVal)) :
    filterTruthy (filterTruthy l) = filterTruthy l := by
  simp [filterTruthy, List.filter_filter]

/-- C4: the rendered report always carries a `status` entry whose value is
the explicit status when a non-empty one is given, otherwise `FAIL` when a
non-empty error message was given, otherwise `PASS`; at construction the
reporter's status defaults to `PASS`; and whenever the explicit status is
empty or one of the three allowed values, the rendered status is one of
`PASS`, `FAIL`, `NA`. -/
theorem json_report_status_rule (lo : LogOutput) (now : Int)
    (trace err alert status : String) (mn tn : String)
    (al : List String) (t0 : Int)
    (h : status = "" ∨ status = "PASS" ∨ status = "FAIL" ∨ status = "NA") :
    (("status", JVal.str (statusValue err status))
        ∈ (json_report lo now trace err alert status).1)
    ∧ (∀ v, ("status", v) ∈ (json_report lo now trace err alert status).1
        → v = JVal.str (statusValue err status))
    ∧ statusValue err status
        = (if status ≠ "" then status
           else if err ≠ "" then "FAIL" else "PASS")
    ∧ (LogOutput.init mn al tn t0).status = "PASS"
    ∧ (statusValue err status = "PASS" ∨ statusValue err status = "FAIL"
        ∨ statusValue err status = "NA") := by
  refine ⟨?_, ?_, ?_, rfl, ?_⟩
  · simp only [json_report, filterTruthy, List.mem_filter]
    refine ⟨by simp, ?_⟩
    simpa [jtruthy] using statusValue_ne_empty err status
  · intro v hv
    simp only [json_report, filterTruthy, List.mem_filter] at hv
    obtain ⟨hmem, -⟩ := hv
    simp only [List.mem_cons, List.mem_singleton, Prod.mk.injEq] at hmem
    simp_all
  · by_cases hs : status = ""
    · by_cases he : err = "" <;> simp [statusValue, hs, he]
    · simp [statusValue, hs]
  · rcases h with rfl | rfl | rfl | rfl
    · by_cases he : err = "" <;> simp [statusValue, he]
    · simp [statusValue]
    · simp [statusValue]
    · simp [statusValue]

/-- C4 witness: with explicit status `NA` and a non-empty error message,
the rendered status entry is `NA`. -/
theorem json_report_status_rule_witness :
    ("status", JVal.str (statusValue "boom" "NA"))
      ∈ (json_report (LogOutput.init "select_object_content"
          ["bucket_name", "object_name", "request"] "t" 0) 5 "tr" "boom" ""
          "NA").1 :=
  (json_report_status_rule (LogOutput.init "select_object_content"
      ["bucket_name", "object_name", "request"] "t" 0) 5 "tr" "boom" "" "NA"
      "m" "t" [] 0 (by simp)).1

/-- C5 counterexample: the dict comprehension filters every entry,
`duration` included, so a render whose elapsed time rounds to 0 ms has no
`duration` key in its JSON record (here a reporter constructed at time 7
and rendered at time 7). -/
theorem json_report_duration_zero_dropped :
    ((json_report (LogOutput.mk "s3select:t"
        "select_object_content(bucket_name, object_name, request)"
        [("bucket_name", JVal.str "b")] 0 "" "PASS" 7) 7 "" "" "" "").1).lookup
      "duration" = none := by
  rfl

/-- C5 amended: every entry of the rendered record has a truthy value
(empty strings, empty mappings and zeros are omitted, and falsy args
entries are dropped from the rendered args mapping); the duration field
is subject to the same rule as every other field: it appears, as the
elapsed milliseconds since construction, exactly when that value is
non-zero. -/
theorem json_report_omission_rule (lo : LogOutput) (now : Int)
    (trace err alert status : String) :
    (∀ p ∈ (json_report lo now trace err alert status).1, jtruthy p.2 = true)
    ∧ (∀ m, ("args", JVal.obj m) ∈ (json_report lo now trace err alert status).1
        → ∀ q ∈ m, jtruthy q.2 = true)
    ∧ (now - lo.start_time ≠ 0
        → ("duration", JVal.num (now - lo.start_time))
            ∈ (json_report lo now trace err alert status).1)
    ∧ (now - lo.start_time = 0
        → ∀ v, ("duration", v) ∉ (json_report lo now trace err alert status).1) := by
  refine ⟨?_, ?_, ?_, ?_⟩
  · intro p hp
    exact (List.mem_filter.mp hp).2
  · intro m hm q hq
    simp only [json_report, filterTruthy, List.mem_filter, List.mem_cons,
      List.mem_singleton, Prod.mk.injEq] at hm
    obtain ⟨hmem, -⟩ := hm
    have hmArgs : m = List.filter (fun p => jtruthy p.2) lo.args := by
      simp_all
    rw [hmArgs] at hq
    exact (List.mem_filter.mp hq).2
  · intro hd
    simp only [json_report, filterTruthy, List.mem_filter]
    refine ⟨by simp, by simpa [jtruthy] using hd⟩
  · intro hd v hv
    simp only [json_report, filterTruthy, List.mem_filter, List.mem_cons,
      List.mem_singleton, Prod.mk.injEq] at hv
    obtain ⟨hmem, htr⟩ := hv
    have hv0 : v = JVal.num (now - lo.start_time) := by simp_all
    rw [hv0, hd] at htr
    simp [jtruthy] at htr

/-- C5 witness: with one millisecond elapsed, the duration entry is
present with value 1. -/
theorem json_report_omission_rule_witness :
    ("duration", JVal.num 1)
      ∈ (json_report (LogOutput.init "select_object_content"
          ["bucket_name"] "t" 4) 5 "" "" "" "").1 :=
  (json_report_omission_rule (LogOutput.init "select_object_content"
      ["bucket_name"] "t" 4) 5 "" "" "" "").2.2.1 (by decide)

/-- C6: rendering the same reporter twice with identical arguments yields
records that agree on every key other than `duration` (name, function,
args and status never change), and the durations, measured from
construction each time, are non-decreasing when the second render happens
no earlier than the first. -/
theorem json_report_shape_stability (lo : LogOutput) (n1 n2 : Int)
    (trace err alert status : String)
    (h1 : lo.start_time ≤ n1) (h2 : n1 ≤ n2) :
    (∀ k v, k ≠ "duration" →
      ((k, v) ∈ (json_report lo n1 trace err alert status).1
        ↔ (k, v) ∈ (json_report (json_report lo n1 trace err alert status).2
              n2 trace err alert status).1))
    ∧ 0 ≤ n1 - lo.start_time
    ∧ n1 - lo.start_time
        ≤ n2 - ((json_report lo n1 trace err alert status).2).start_time := by
  refine ⟨?_, by omega, ?_⟩
  · intro k v hk
    simp only [json_report, filterTruthy_idem, filterTruthy, List.mem_filter,
      List.mem_cons, List.mem_singleton, Prod.mk.injEq, List.filter_filter,
      Bool.and_self]
    constructor
    · rintro ⟨hmem, htr⟩
      refine ⟨?_, htr⟩
      rcases hmem with h | h | h | h | h | h | h | h
      · exact Or.inl h
      · exact Or.inr (Or.inl h)
      · exact Or.inr (Or.inr (Or.inl h))
      · exact absurd h.1 hk
      · exact Or.inr (Or.inr (Or.inr (Or.inr (Or.inl h))))
      · exact Or.inr (Or.inr (Or.inr (Or.inr (Or.inr (Or.inl h)))))
      · exact Or.inr (Or.inr (Or.inr (Or.inr (Or.inr (Or.inr (Or.inl h))))))
      · exact Or.inr (Or.inr (Or.inr (Or.inr (Or.inr (Or.inr (Or.inr h))))))
    · rintro ⟨hmem, htr⟩
      refine ⟨?_, htr⟩
      rcases hmem with h | h | h | h | h | h | h | h
      · exact Or.inl h
      · exact Or.inr (Or.inl h)
      · exact Or.inr (Or.inr (Or.inl h))
      · exact absurd h.1 hk
      · exact Or.inr (Or.inr (Or.inr (Or.inr (Or.inl h))))
      · exact Or.inr (Or.inr (Or.inr (Or.inr (Or.inr (Or.inl h)))))
      · exact Or.inr (Or.inr (Or.inr (Or.inr (Or.inr (Or.inr (Or.inl h))))))
      · exact Or.inr (Or.inr (Or.inr (Or.inr (Or.inr (Or.inr (Or.inr h))))))
  · have hst : ((json_report lo n1 trace err alert status).2).start_time
        = lo.start_time := rfl
    omega

/-- C6 witness: a reporter built at time 0 rendered at times 1 and 2. -/
theorem json_report_shape_stability_witness :
    (∀ k v, k ≠ "duration" →
      ((k, v) ∈ (json_report (LogOutput.init "m" [] "t" 0) 1 "" "" "" "").1
        ↔ (k, v) ∈ (json_report
              (json_report (LogOutput.init "m" [] "t" 0) 1 "" "" "" "").2
              2 "" "" "" "").1))
    ∧ 0 ≤ 1 - (LogOutput.init "m" [] "t" 0).start_time
    ∧ 1 - (LogOutput.init "m" [] "t" 0).start_time
        ≤ 2 - ((json_report (LogOutput.init "m" [] "t" 0) 1 "" "" "" "").2).start_time :=
  json_report_shape_stability (LogOutput.init "m" [] "t" 0) 1 2 "" "" "" ""
    (by decide) (by decide)

/-- C10: `json_report` permanently replaces the reporter's args mapping
with its filtered copy: after a render the stored args contain no
falsy-valued entry, truthy entries survive, a later render leaves the
stored args unchanged, and every other reporter field (name, function,
duration, alert, status, start time) is untouched. -/
theorem json_report_mutation (lo : LogOutput) (now : Int)
    (trace err alert status : String) :
    ((json_report lo now trace err alert status).2).args = filterTruthy lo.args
    ∧ (∀ k v, (k, v) ∈ ((json_report lo now trace err alert status).2).args
        → jtruthy v = true)
    ∧ (∀ k v, (k, v) ∈ lo.args → jtruthy v = true
        → (k, v) ∈ ((json_report lo now trace err alert status).2).args)
    ∧ (∀ n2 t2 e2 a2 s2,
        ((json_report ((json_report lo now trace err alert status).2)
            n2 t2 e2 a2 s2).2).args
          = ((json_report lo now trace err alert status).2).args)
    ∧ ((json_report lo now trace err alert status).2).name = lo.name
    ∧ ((json_report lo now trace err alert status).2).function = lo.function
    ∧ ((json_report lo now trace err alert status).2).duration = lo.duration
    ∧ ((json_report lo now trace err alert status).2).alert = lo.alert
    ∧ ((json_report lo now trace err alert status).2).status = lo.status
    ∧ ((json_report lo now trace err alert status).2).start_time
        = lo.start_time := by
  refine ⟨rfl, ?_, ?_, ?_, rfl, rfl, rfl, rfl, rfl, rfl⟩
  · intro k v hv
    exact (List.mem_filter.mp hv).2
  · intro k v hv htr
    exact List.mem_filter.mpr ⟨hv, htr⟩
  · intro n2 t2 e2 a2 s2
    exact filterTruthy_idem lo.args

/-- C10 witness: after one render of a reporter holding a falsy and a
truthy args entry, the truthy entry is still stored while the rendered
reporter keeps only truthy entries. -/
theorem json_report_mutation_witness :
    ("b", JVal.str "x")
      ∈ ((json_report (LogOutput.mk "n" "f"
          [("a", JVal.str ""), ("b", JVal.str "x")] 0 "" "PASS" 0)
          3 "" "" "" "").2).args :=
  (json_report_mutation (LogOutput.mk "n" "f"
      [("a", JVal.str ""), ("b", JVal.str "x")] 0 "" "PASS" 0)
      3 "" "" "" "").2.2.1 "b" (JVal.str "x") (by simp) rfl

/-- One row of the `tests` table in `test_csv_output_custom_quote_char`
(`run/core/s3select/csv.py`): the output-side quote character, the
output-side quote-escape character, the input payload and the expected
result.  Characters and payloads are byte lists, so the Python literal
`"''"` (two apostrophe characters, bytes 39 39) is distinct from the
empty string (no bytes).  Byte 39 is the apostrophe, 34 the double
quote, 92 the backslash, 44 the comma, 10 the newline and 0 NUL.  The
input serialization of this test is fixed (quote and escape both the
double quote). -/
structure QuoteCase where
  quote_character : Bytes
  quote_escape_character : Bytes
  input_data : Bytes
  expected_output : ExpectedOutput

/-- The thirteen rows of the `tests` list of
`test_csv_output_custom_quote_char`, in source order. -/
def csvOutputQuoteTests : List QuoteCase :=
  [⟨[39, 39], [39, 39], ascii "col1,col2,col3" ++ [10], .exception⟩,
   ⟨[39], [39], ascii "col1,col2,col3" ++ [10],
     .bytes ([39] ++ ascii "col1" ++ [39, 44, 39] ++ ascii "col2"
       ++ [39, 44, 39] ++ ascii "col3" ++ [39, 10])⟩,
   ⟨[], [34], ascii "col1,col2,col3" ++ [10],
     .bytes ([0] ++ ascii "col1" ++ [0, 44, 0] ++ ascii "col2"
       ++ [0, 44, 0] ++ ascii "col3" ++ [0, 10])⟩,
   ⟨[34], [34], ascii "col1,col2,col3" ++ [10],
     .bytes ([34] ++ ascii "col1" ++ [34, 44, 34] ++ ascii "col2"
       ++ [34, 44, 34] ++ ascii "col3" ++ [34, 10])⟩,
   ⟨[34], [34], ascii "col" ++ [34] ++ ascii "1,col2,col3" ++ [10],
     .bytes ([34] ++ ascii "col" ++ [34, 34] ++ ascii "1" ++ [34, 44, 34]
       ++ ascii "col2" ++ [34, 44, 34] ++ ascii "col3" ++ [34, 10])⟩,
   ⟨[34], [34], [34, 34, 34, 34, 10], .bytes [34, 34, 34, 34, 10]⟩,
   ⟨[34], [34], [10], .bytes []⟩,
   ⟨[39], [92], ascii "col1,col2,col3" ++ [10],
     .bytes ([39] ++ ascii "col1" ++ [39, 44, 39] ++ ascii "col2"
       ++ [39, 44, 39] ++ ascii "col3" ++ [39, 10])⟩,
   ⟨[39], [92], ascii "col" ++ [34, 34] ++ ascii "1,col2,col3" ++ [10],
     .bytes ([39] ++ ascii "col" ++ [34, 34] ++ ascii "1" ++ [39, 44, 39]
       ++ ascii "col2" ++ [39, 44, 39] ++ ascii "col3" ++ [39, 10])⟩,
   ⟨[39], [92], ascii "col" ++ [39] ++ ascii "1,col2,col3" ++ [10],
     .bytes ([39] ++ ascii "col" ++ [92, 39] ++ ascii "1" ++ [39, 44, 39]
       ++ ascii "col2" ++ [39, 44, 39] ++ ascii "col3" ++ [39, 10])⟩,
   ⟨[39], [92], [34] ++ ascii "col" ++ [39] ++ ascii "1" ++ [34, 44, 34]
       ++ ascii "col2" ++ [34, 44, 34] ++ ascii "col3" ++ [34, 10],
     .bytes ([39] ++ ascii "col" ++ [92, 39] ++ ascii "1" ++ [39, 44, 39]
       ++ ascii "col2" ++ [39, 44, 39] ++ ascii "col3" ++ [39, 10])⟩,
   ⟨[39], [92], ascii "col" ++ [39, 10],
     .bytes ([39] ++ ascii "col" ++ [92, 39, 39, 10])⟩,
   ⟨[39], [92], [34, 97, 34, 34, 34, 34, 34, 10],
     .bytes [39, 97, 34, 34, 39, 10]⟩]

/-- C7 counterexample: no row of the CSV-output quote table has both an
empty quote character and an empty escape character, and the unique
expect-failure row is the one whose quote and escape characters are the
two-apostrophe string (bytes 39 39), not the empty string. -/
theorem csv_output_quote_table_counterexample :
    csvOutputQuoteTests.filter
        (fun c => c.quote_character.isEmpty && c.quote_escape_character.isEmpty)
      = []
    ∧ csvOutputQuoteTests.filter
        (fun c => c.expected_output == ExpectedOutput.exception)
      = [⟨[39, 39], [39, 39], ascii "col1,col2,col3" ++ [10], .exception⟩] := by
  constructor <;> rfl

/-- C7 amended: in the CSV-output quote-character table, the
expect-failure row pairs input `col1,col2,col3` plus newline with the
two-character quote string of two apostrophes and the same escape
string; the only row with an empty quote character uses the double quote
as escape character and expects the select to succeed, quoting fields
with NUL bytes. -/
theorem csv_output_quote_table_rows :
    csvOutputQuoteTests[0]?
      = some ⟨[39, 39], [39, 39], ascii "col1,col2,col3" ++ [10], .exception⟩
    ∧ csvOutputQuoteTests[2]?
      = some ⟨[], [34], ascii "col1,col2,col3" ++ [10],
          .bytes ([0] ++ ascii "col1" ++ [0, 44, 0] ++ ascii "col2"
            ++ [0, 44, 0] ++ ascii "col3" ++ [0, 10])⟩
    ∧ (csvOutputQuoteTests.filter
        (fun c => c.quote_character.isEmpty)).length = 1 := by
  refine ⟨rfl, rfl, rfl⟩

/-- The well-known precondition-violation text compared against
`err.message` in `copy_object_with_conditions_test`. -/
def preconditionText : String :=
  "At least one of the preconditions you specified did not hold."

/-- The possible results of the conditional `copy_object` call inside
`copy_object_with_conditions_test` (`Apps/minio-py/functional_test.py`
and `apps/minio-py/functional_test.py`): success, a `PreconditionFailed`
error carrying a message, or any other exception. -/
inductive CopyAttempt where
  | ok
  | preconditionFailed (msg : String)
  | otherError (msg : String)

/-- What the test function does with the copy result: return normally
(with the list of messages it passed to `logger.error`), or re-raise an
exception (again with the logged messages). -/
inductive CopyOutcome where
  | returned (logged : List String)
  | raised (err : String) (logged : List String)

/-- The inner `try`/`except` of `copy_object_with_conditions_test`: a
`PreconditionFailed` whose message is the well-known text falls through
the `if` with no action; a `PreconditionFailed` with any other message is
passed to `logger.error` and the function still returns normally (there
is no `raise` in that branch); any other exception is logged and
re-raised. -/
def copy_object_with_conditions_handler : CopyAttempt → CopyOutcome
  | .ok => .returned []
  | .preconditionFailed msg =>
    if msg = preconditionText then .returned [] else .returned [msg]
  | .otherError msg => .raised msg [msg]

/-- Whether an outcome re-raises, i.e. is visible to the caller as a
failure. -/
def escalates : CopyOutcome → Bool
  | .raised _ _ => true
  | .returned _ => false

/-- C8 counterexample: a `PreconditionFailed` whose message is not the
well-known text is only logged — the handler returns normally instead of
escalating, so the failure never reaches the caller. -/
theorem copy_conditions_wrong_message_not_raised :
    copy_object_with_conditions_handler (.preconditionFailed "wrong")
      = .returned ["wrong"]
    ∧ escalates (copy_object_with_conditions_handler
        (.preconditionFailed "wrong")) = false := by
  constructor <;> rfl

/-- C8 amended: the exact precondition-violation message is accepted with
no further action; any other `PreconditionFailed` message is logged via
`logger.error` but not re-raised, so the test function still returns
normally; only a non-`PreconditionFailed` exception is logged and
re-raised. -/
theorem copy_conditions_handler_behavior (m : String) :
    copy_object_with_conditions_handler (.preconditionFailed preconditionText)
      = .returned []
    ∧ (m ≠ preconditionText →
        copy_object_with_conditions_handler (.preconditionFailed m)
          = .returned [m])
    ∧ copy_object_with_conditions_handler (.otherError m) = .raised m [m] := by
  refine ⟨by simp [copy_object_with_conditions_handler], ?_, rfl⟩
  intro h
  simp [copy_object_with_conditions_handler, h]

/-- C8 witness: a concrete unexpected message is logged and the handler
returns normally. -/
theorem copy_conditions_handler_behavior_witness :
    copy_object_with_conditions_handler (.preconditionFailed "x")
      = .returned ["x"] :=
  (copy_conditions_handler_behavior "x").2.1 (by decide)

/-- One test slot of the s3select `main` driver
(`run/core/s3select/tests.py`): the fresh reporter constructed for the
test, the test body's behaviour (normal return, or a raised exception
whose `str` is the carried message), the time at which its report is
rendered, and the ambient traceback text at that point. -/
structure TestSpec where
  reporter : LogOutput
  behavior : Except String Unit
  finishTime : Int
  trace : String

/-- `main()` of `run/core/s3select/tests.py`: the test calls run
sequentially inside one `try`; each passing test prints its reporter's
JSON record (rendered with no error message), the first raised exception
is caught by the driver, which prints the current reporter's record
rendered with the error and calls `sys.exit(1)`; the remaining tests
never run.  Returns the printed records and the process exit status. -/
def s3select_main : List TestSpec → List (List (String × JVal)) × Nat
  | [] => ([], 0)
  | t :: ts =>
    match t.behavior with
    | .ok _ =>
      let line := (json_report t.reporter t.finishTime t.trace "" "" "").1
      let rest := s3select_main ts
      (line :: rest.1, rest.2)
    | .error e =>
      ([(json_report t.reporter t.finishTime t.trace e "" "").1], 1)

/-- The wrapper produced by `log_decorate(logger)`
(`Apps/minio-py/decorator.py`): it calls the wrapped function; when the
call raises it builds an error record from the exception message, passes
it to `logger.info`, and returns `None` without re-raising; a normal
result is passed through. -/
def log_decorate_wrapper (logger : List String) :
    Except String Unit → Option Unit × List String
  | .ok a => (some a, logger)
  | .error e => (none, logger ++ [e])

/-- The sequencing of decorated test calls in `run_tests`
(`Apps/minio-py/functional_test.py`): each decorated test is invoked in
order; because the wrapper swallows exceptions, every call returns
normally and the next test always runs.  Returns how many tests ran and
the final log. -/
def apps_run_tests (logger : List String) :
    List (Except String Unit) → Nat × List String
  | [] => (0, logger)
  | t :: ts =>
    let r := log_decorate_wrapper logger t
    let rest := apps_run_tests r.2 ts
    (rest.1 + 1, rest.2)

/-- C9 counterexample: under the Apps `log_decorate` wrapper, a failing
first test is merely logged — all three tests of this run execute, so the
failure is masked from the run outcome instead of stopping the suite
after one test. -/
theorem apps_decorator_swallows_counterexample :
    apps_run_tests [] [.error "boom", .ok (), .ok ()] = (3, ["boom"])
    ∧ (3 : Nat) ≠ 1 := by
  constructor <;> decide

/-- C9 amended: in the s3select driver, the first failing test ends the
run — the printed records are exactly the passing tests' records followed
by one record rendered with the error (whose `error` entry carries the
traceback when the message and trace are non-empty), the exit status is
1, and the tests after the failure never run; the Apps `log_decorate`
wrapper, by contrast, swallows the exception of a decorated test (logging
it and returning `None`), so there the driver does not observe the
failure. -/
theorem suite_driver_propagation (pre : List TestSpec) (t : TestSpec)
    (post : List TestSpec) (e : String)
    (hpre : ∀ s ∈ pre, s.behavior = .ok ())
    (hfail : t.behavior = .error e) :
    (s3select_main (pre ++ t :: post)
      = (pre.map
            (fun s => (json_report s.reporter s.finishTime s.trace "" "" "").1)
          ++ [(json_report t.reporter t.finishTime t.trace e "" "").1],
         1))
    ∧ (e ≠ "" → t.trace ≠ "" →
        ("error", JVal.str t.trace)
          ∈ (json_report t.reporter t.finishTime t.trace e "" "").1)
    ∧ (∀ lg, log_decorate_wrapper lg (.error e) = (none, lg ++ [e])) := by
  refine ⟨?_, ?_, fun lg => rfl⟩
  · induction pre with
    | nil => simp [s3select_main, hfail]
    | cons s pre ih =>
      have hs : s.behavior = .ok () := hpre s (by simp)
      have ih2 := ih (fun x hx => hpre x (by simp [hx]))
      simp [s3select_main, hs, ih2]
  · intro he ht
    have he2 : (e != "") = true := by simp [bne, he]
    simp only [json_report, filterTruthy, List.mem_filter, he2, if_true]
    refine ⟨by simp, by simpa [jtruthy] using ht⟩

/-- C9 witness: a single failing test with a non-empty message and trace
produces a record whose `error` entry is the traceback. -/
theorem suite_driver_propagation_witness :
    ("error", JVal.str "tb")
      ∈ (json_report (LogOutput.init "m" ["a"] "t2" 0) 2 "tb" "boom" "" "").1 :=
  (suite_driver_propagation []
      ⟨LogOutput.init "m" ["a"] "t2" 0, .error "boom", 2, "tb"⟩ [] "boom"
      (by simp) rfl).2.1 (by decide) (by decide)

end Mint
